import Mathlib

/-!
# Shallow embedding of `src/lib/components/admin/Evaluations/Feedbacks.svelte`

The component keeps an admin table of feedback records plus an "analysis"
panel.  Its logical core is:

* `filterFeedbackItems` / the pure `filteredItems` — mode ('all' /
  'positive' / 'negative') and case-insensitive substring search over the
  retained original snapshot;
* `processFeedbackData` — summary statistics (total / positive / negative)
  over the unfiltered snapshot, then an initial `('all', '')` filter;
* `toggleFeedbackAnalysis`, `deleteFeedbackHandler`,
  `refreshFeedbacksAnalysis` — state transitions (network results are
  passed in explicitly as `Bool` / `Option` values);
* `shareHandler`'s payload construction (`feedbacksToShare`), which drops
  the `snapshot` and `user` fields;
* `formatConversation` — the HTML-string renderer for chat transcripts.

JavaScript peculiarities are modelled explicitly: optional fields are
`Option`s, `undefined > 0` is `false` (see `ratingPos`), string truthiness
(`""` is falsy) is `truthyS`, `String.prototype.includes` is `includesB`,
`toLowerCase` is `lowerStr`, and `query.trim()` used as a boolean is
`hasNonWS`.
-/

/-! ## String primitives mirroring the JavaScript ones -/

/-- `s.toLowerCase()` (ASCII-faithful). -/
def lowerStr (s : String) : String := ⟨s.data.map Char.toLower⟩

/-- Truthiness of `s.trim()`: `true` iff `s` has a non-whitespace character. -/
def hasNonWS (s : String) : Bool := s.data.any (fun c => !c.isWhitespace)

/-- Does `pat` occur contiguously in `l`?  (Scan of every suffix.) -/
def includesAux (pat : List Char) : List Char → Bool
  | [] => pat.isEmpty
  | c :: rest => pat.isPrefixOf (c :: rest) || includesAux pat rest

/-- `s.includes(pat)`. -/
def includesB (s pat : String) : Bool := includesAux pat.data s.data

/-- JavaScript truthiness of an optional string: present and non-empty. -/
def truthyS : Option String → Bool
  | some s => s != ""
  | none => false

/-! ## Data model (the `Feedback` type of the component) -/

/-- `details?: { rating?: number }`. -/
structure FeedbackDetails where
  rating : Option Int
deriving DecidableEq

/-- The `data` payload of a feedback record.  `rating` is optional here
because the component reads it as `item.data?.rating` and guards every
use against `undefined`. -/
structure FeedbackData where
  rating : Option Int
  model_id : Option String
  sibling_model_ids : Option (List String)
  reason : Option String
  comment : Option String
  tags : Option (List String)
  details : Option FeedbackDetails
deriving DecidableEq

/-- `user: { name, profile_image_url }`. -/
structure UserInfo where
  name : Option String
  profile_image_url : Option String
deriving DecidableEq

/-- One chat message inside a snapshot. -/
structure ErrorInfo where
  content : String
deriving DecidableEq

structure Message where
  role : String
  content : Option String
  annotation : Option String
  feedbackId : Option String
  error : Option ErrorInfo
deriving DecidableEq

/-- `snapshot.chat.chat`: the inner object holding the message list.
`messages` is `none` when absent or not an array. -/
structure ChatInner where
  messages : Option (List Message)
deriving DecidableEq

/-- `snapshot.chat`: title plus the inner chat object. -/
structure ChatOuter where
  title : Option String
  chat : Option ChatInner
deriving DecidableEq

/-- `snapshot`. -/
structure Snapshot where
  chat : Option ChatOuter
deriving DecidableEq

/-- `meta?: { model_id?, tags? }`. -/
structure FeedbackMeta where
  model_id : Option String
  tags : Option (List String)
deriving DecidableEq

/-- A feedback record. -/
structure Feedback where
  id : String
  data : Option FeedbackData
  user : Option UserInfo
  updated_at : Int
  created_at : Option Int
  browser_id : Option String
  snapshot : Option Snapshot
  meta : Option FeedbackMeta
deriving DecidableEq

/-! ## Accessors (optional chaining) -/

/-- `item.data?.rating`. -/
def ratingOf (item : Feedback) : Option Int := item.data.bind (·.rating)

/-- `item.snapshot?.chat?.title`. -/
def titleOf (item : Feedback) : Option String :=
  (item.snapshot.bind (·.chat)).bind (·.title)

/-- `item.snapshot?.chat?.chat?.messages` (also `none` if not an array). -/
def messagesOf (item : Feedback) : Option (List Message) :=
  ((item.snapshot.bind (·.chat)).bind (·.chat)).bind (·.messages)

/-- `item.data?.rating > 0` with JavaScript `undefined > 0 = false`. -/
def ratingPos (item : Feedback) : Bool :=
  match ratingOf item with
  | some n => decide (0 < n)
  | none => false

/-- `item.data?.rating < 0` with JavaScript `undefined < 0 = false`. -/
def ratingNeg (item : Feedback) : Bool :=
  match ratingOf item with
  | some n => decide (n < 0)
  | none => false

/-! ## The filter / search engine -/

/-- The search predicate of `filterFeedbackItems` (lines 211–227): the
title, when truthy, lowercased, must include `lowerQuery`, or else some
message's truthy content, lowercased, must include it; a missing message
array yields `false`. -/
def matchesQuery (lowerQuery : String) (item : Feedback) : Bool :=
  if truthyS (titleOf item)
      && includesB (lowerStr ((titleOf item).getD "")) lowerQuery then
    true
  else
    match messagesOf item with
    | some messages =>
        messages.any (fun message =>
          truthyS message.content
            && includesB (lowerStr (message.content.getD "")) lowerQuery)
    | none => false

/-- The pure core of `filterFeedbackItems`: starting from the original
data, apply the rating filter for `filterType`, then, when `query.trim()`
is truthy, the search filter with `query.toLowerCase()`. -/
def filteredItems (originalFeedbacksData : List Feedback)
    (filterType query : String) : List Feedback :=
  let step1 :=
    if filterType = "positive" then
      originalFeedbacksData.filter (fun item => ratingPos item)
    else if filterType = "negative" then
      originalFeedbacksData.filter (fun item => ratingNeg item)
    else
      originalFeedbacksData
  if hasNonWS query then
    step1.filter (fun item => matchesQuery (lowerStr query) item)
  else
    step1

/-! ## Component state and handlers -/

/-- The component-local mutable variables. -/
structure ComponentState where
  feedbacks : List Feedback
  originalFeedbacksData : List Feedback
  parsedFeedbacksData : List Feedback
  showFeedbackAnalysis : Bool
  activeFilter : String
  searchQuery : String
  totalItems : Nat
  positiveCount : Nat
  negativeCount : Nat
deriving DecidableEq

/-- The initial values of the component-local variables (lines 25–32,
84–86). -/
def initState : ComponentState :=
  { feedbacks := []
    originalFeedbacksData := []
    parsedFeedbacksData := []
    showFeedbackAnalysis := false
    activeFilter := "all"
    searchQuery := ""
    totalItems := 0
    positiveCount := 0
    negativeCount := 0 }

/-- `filterFeedbackItems(filterType, query)`: records the active filter
and query, recomputes the display list from `originalFeedbacksData`. -/
def filterFeedbackItems (filterType query : String)
    (s : ComponentState) : ComponentState :=
  { s with
    activeFilter := filterType
    searchQuery := query
    parsedFeedbacksData := filteredItems s.originalFeedbacksData filterType query }

/-- `processFeedbackData(feedbackData)`: store the snapshot, compute the
summary statistics over it (the `forEach` counting loop), then show all
items via `filterFeedbackItems('all', '')`. -/
def processFeedbackData (feedbackData : List Feedback)
    (s : ComponentState) : ComponentState :=
  filterFeedbackItems "all" ""
    { s with
      originalFeedbacksData := feedbackData
      totalItems := feedbackData.length
      positiveCount := feedbackData.countP (fun item => ratingPos item)
      negativeCount := feedbackData.countP (fun item => ratingNeg item) }

/-- `toggleFeedbackAnalysis()`: flip visibility; when now visible and the
parsed (display) list is empty, process a copy of `feedbacks`. -/
def toggleFeedbackAnalysis (s : ComponentState) : ComponentState :=
  let s1 := { s with showFeedbackAnalysis := !s.showFeedbackAnalysis }
  if s1.showFeedbackAnalysis && s1.parsedFeedbacksData.length == 0 then
    processFeedbackData s1.feedbacks s1
  else
    s1

/-- `deleteFeedbackHandler(feedbackId)`: `response` is whether the network
delete succeeded (`null` on failure); only on success is the record list
filtered. -/
def deleteFeedbackHandler (response : Bool) (feedbackId : String)
    (s : ComponentState) : ComponentState :=
  if response then
    { s with feedbacks := s.feedbacks.filter (fun f => f.id != feedbackId) }
  else
    s

/-- `refreshFeedbacksAnalysis()`: `result` is the outcome of
`exportAllFeedbacks` (`none` on a thrown error or a falsy response); on
success the fresh data is processed. -/
def refreshFeedbacksAnalysis (result : Option (List Feedback))
    (s : ComponentState) : ComponentState :=
  match result with
  | some refreshedFeedbacks => processFeedbackData refreshedFeedbacks s
  | none => s

/-! ## The share payload -/

/-- What remains of a record after `const { snapshot, user, ...rest } = f`. -/
structure SharedFeedback where
  id : String
  data : Option FeedbackData
  updated_at : Int
  created_at : Option Int
  browser_id : Option String
  meta : Option FeedbackMeta
deriving DecidableEq

/-- The rest-spread of one record in `shareHandler`. -/
def stripFeedback (f : Feedback) : SharedFeedback :=
  { id := f.id
    data := f.data
    updated_at := f.updated_at
    created_at := f.created_at
    browser_id := f.browser_id
    meta := f.meta }

/-- `feedbacks.map(f => { const { snapshot, user, ...rest } = f; return rest; })`. -/
def feedbacksToShare (feedbacks : List Feedback) : List SharedFeedback :=
  feedbacks.map stripFeedback

/-! ## The conversation formatter -/

/-- The placeholder returned when the input is not an array. -/
def noDataPlaceholder : String :=
  "<p class=\"text-gray-500 dark:text-gray-400 text-sm\">No conversation data available</p>"

def userClassName : String := "bg-gray-50 dark:bg-gray-800 p-3 rounded-lg mb-2"

def assistantClassName : String := "bg-gray-100 dark:bg-gray-700 p-3 rounded-lg mb-2"

def feedbackHighlightClass : String := "border-2 border-red-500 dark:border-red-400"

def feedbackMarkerDiv : String :=
  "<div class=\"text-red-500 dark:text-red-400 text-xs font-medium mt-1\">[This message received feedback]</div>"

/-- `message.annotation || message.feedbackId` as a boolean. -/
def hasFeedback (message : Message) : Bool :=
  truthyS message.annotation || truthyS message.feedbackId

/-- `message.content || ''` then the appended error sub-block when
`message.error && message.error.content` is truthy. -/
def displayContent (message : Message) : String :=
  let base := message.content.getD ""
  match message.error with
  | some e =>
      if e.content != "" then
        base ++ "<div class=\"text-red-500 dark:text-red-400 text-xs mt-1\">"
          ++ e.content ++ "</div>"
      else
        base
  | none => base

/-- The template literal of lines 258–264 for one message. -/
def formatMessage (message : Message) : String :=
  let isUser := message.role == "user"
  let className := if isUser then userClassName else assistantClassName
  let fb := hasFeedback message
  let feedbackHighlight := if fb then feedbackHighlightClass else ""
  "\n\t\t\t\t<div class=\"" ++ className ++ " " ++ feedbackHighlight ++ "\">\n\t\t\t\t\t<div class=\"font-medium text-gray-700 dark:text-gray-300\">"
    ++ (if isUser then "User" else "Assistant")
    ++ "</div>\n\t\t\t\t\t<div class=\"text-sm mt-1 text-gray-600 dark:text-gray-300\">"
    ++ displayContent message
    ++ "</div>\n\t\t\t\t\t"
    ++ (if fb then feedbackMarkerDiv else "")
    ++ "\n\t\t\t\t</div>\n\t\t\t"

/-- `formatConversation(messages)`: `none` models a non-array input. -/
def formatConversation : Option (List Message) → String
  | none => noDataPlaceholder
  | some messages => String.join (messages.map formatMessage)

/-! ## Structured rendering (the specification's view of the formatter) -/

/-- Modelled from the spec: the per-message renderable the specification
describes — user/assistant classification, text content, optional error
sub-block text, and the flagged marker. -/
structure RenderedMessage where
  isUser : Bool
  text : String
  errorText : Option String
  flagged : Bool
deriving DecidableEq

/-- Modelled from the spec: classify one message as the specification
describes (role, content, error text when truthy, flagged on annotation
or feedback linkage). -/
def classifyMessage (message : Message) : RenderedMessage :=
  { isUser := message.role == "user"
    text := message.content.getD ""
    errorText :=
      match message.error with
      | some e => if e.content != "" then some e.content else none
      | none => none
    flagged := hasFeedback message }

/-- Print a structured `RenderedMessage` with the component's markup. -/
def renderMessage (rm : RenderedMessage) : String :=
  "\n\t\t\t\t<div class=\"" ++ (if rm.isUser then userClassName else assistantClassName)
    ++ " " ++ (if rm.flagged then feedbackHighlightClass else "")
    ++ "\">\n\t\t\t\t\t<div class=\"font-medium text-gray-700 dark:text-gray-300\">"
    ++ (if rm.isUser then "User" else "Assistant")
    ++ "</div>\n\t\t\t\t\t<div class=\"text-sm mt-1 text-gray-600 dark:text-gray-300\">"
    ++ (rm.text ++ (match rm.errorText with
        | some t => "<div class=\"text-red-500 dark:text-red-400 text-xs mt-1\">" ++ t ++ "</div>"
        | none => ""))
    ++ "</div>\n\t\t\t\t\t"
    ++ (if rm.flagged then feedbackMarkerDiv else "")
    ++ "\n\t\t\t\t</div>\n\t\t\t"

/-! ## Concrete sample records (used by scenario conjuncts and witnesses) -/

/-- A minimal `data` payload carrying just a rating. -/
def ratedData (n : Int) : FeedbackData :=
  { rating := some n
    model_id := none
    sibling_model_ids := none
    reason := none
    comment := none
    tags := none
    details := none }

/-- A bare record with a given id and rating. -/
def ratedFeedback (i : String) (n : Int) : Feedback :=
  { id := i
    data := some (ratedData n)
    user := none
    updated_at := 0
    created_at := none
    browser_id := none
    snapshot := none
    meta := none }

/-- A record whose `data` field is absent. -/
def noDataFeedback : Feedback :=
  { id := "nodata"
    data := none
    user := none
    updated_at := 0
    created_at := none
    browser_id := none
    snapshot := none
    meta := none }

/-- A snapshot with a title and a list of messages. -/
def mkSnapshot (t : Option String) (ms : Option (List Message)) : Snapshot :=
  { chat := some { title := t, chat := some { messages := ms } } }

/-- A record with a snapshot (Scenario E shapes). -/
def snapFeedback (i : String) (t : Option String) (ms : Option (List Message)) : Feedback :=
  { ratedFeedback i 1 with snapshot := some (mkSnapshot t ms) }

/-- A plain chat message with the given role and content. -/
def plainMessage (r : String) (c : Option String) : Message :=
  { role := r, content := c, annotation := none, feedbackId := none, error := none }

/-- Scenario A / B record set: ratings 1, −1, 0. -/
def scenarioR : List Feedback :=
  [ratedFeedback "a" 1, ratedFeedback "b" (-1), ratedFeedback "c" 0]

/-- A state in which the admin had selected the 'positive' mode with a
search query before refreshing. -/
def preFilterState : ComponentState :=
  { initState with
    feedbacks := scenarioR
    originalFeedbacksData := scenarioR
    parsedFeedbacksData := [ratedFeedback "a" 1]
    showFeedbackAnalysis := true
    activeFilter := "positive"
    searchQuery := "x" }

/-- A state whose retained analysis snapshot is non-empty while the
displayed (filtered) list is empty — e.g. after filtering 'negative' over
an all-positive snapshot — and whose table list has since changed. -/
def staleParsedState : ComponentState :=
  { initState with
    feedbacks := [ratedFeedback "b2" (-1)]
    originalFeedbacksData := [ratedFeedback "a" 1]
    parsedFeedbacksData := []
    showFeedbackAnalysis := false }

example : filteredItems scenarioR "positive" "" = [ratedFeedback "a" 1] := by decide
example : filteredItems scenarioR "negative" "" = [ratedFeedback "b" (-1)] := by decide
example : filteredItems scenarioR "all" "" = scenarioR := by decide
example : (processFeedbackData scenarioR initState).totalItems = 3 := by decide
example : (processFeedbackData scenarioR initState).positiveCount = 1 := by decide
example : (processFeedbackData scenarioR initState).negativeCount = 1 := by decide
example :
    matchesQuery (lowerStr "hello")
      (snapFeedback "e1" (some "Hello World") none) = true := by decide
example :
    matchesQuery (lowerStr "hello")
      (snapFeedback "e2" (some "Other")
        (some [plainMessage "user" (some "say hello there")])) = true := by decide
example :
    matchesQuery (lowerStr "hello")
      (snapFeedback "e3" (some "Other") (some [plainMessage "user" (some "nope")])) = false := by
  decide
example : hasNonWS "  " = false := by decide
example : hasNonWS "" = false := by decide
example : hasNonWS " a" = true := by decide
example :
    filteredItems [snapFeedback "e1" (some "Hello World") none] "all" "HELLO"
      = [snapFeedback "e1" (some "Hello World") none] := by decide

/-! ## Helper lemmas -/

/-- `includesAux` decides contiguous-substring (infix) occurrence. -/
theorem includesAux_iff (pat : List Char) (l : List Char) :
    includesAux pat l = true ↔ pat <:+: l := by
  induction l with
  | nil =>
      simp [includesAux, List.isEmpty_iff, List.infix_nil]
  | cons c rest ih =>
      simp [includesAux, Bool.or_eq_true, ih, List.infix_cons_iff,
        List.isPrefixOf_iff_prefix]

/-- `includesB` decides substring occurrence on the character lists. -/
theorem includesB_iff (s pat : String) :
    includesB s pat = true ↔ pat.data <:+: s.data :=
  includesAux_iff pat.data s.data

theorem lowerStr_data (s : String) :
    (lowerStr s).data = s.data.map Char.toLower := rfl

/-- A query with a non-whitespace character stays non-empty under
lowercasing. -/
theorem lowerStr_ne_nil {q : String} (h : hasNonWS q = true) :
    (lowerStr q).data ≠ [] := by
  intro hnil
  rw [lowerStr_data, List.map_eq_nil_iff] at hnil
  unfold hasNonWS at h
  rw [hnil] at h
  simp at h

/-- JavaScript's `o && o.toLowerCase().includes(lq)` pattern, for a
non-empty `lq`: it holds iff the string is present and `lq` occurs in its
lowercasing (the truthiness guard is redundant then, since an empty
string has no non-empty substring). -/
theorem truthy_includes_iff {lq : String} (hlq : lq.data ≠ [])
    (o : Option String) :
    (truthyS o && includesB (lowerStr (o.getD "")) lq) = true ↔
      ∃ c, o = some c ∧ lq.data <:+: (lowerStr c).data := by
  cases o with
  | none => simp [truthyS]
  | some c =>
      by_cases hc : c = ""
      · subst hc
        simp only [truthyS, Option.getD_some, bne_self_eq_false,
          Bool.false_and, Bool.false_eq_true, false_iff]
        rintro ⟨c', hc', hinf⟩
        cases hc'
        rw [show (lowerStr "").data = [] from rfl] at hinf
        exact hlq (List.infix_nil.mp hinf)
      · simp [truthyS, hc, includesB_iff, Option.getD_some, bne]

theorem ratingPos_iff (r : Feedback) :
    ratingPos r = true ↔ ∃ n, ratingOf r = some n ∧ 0 < n := by
  unfold ratingPos
  cases h : ratingOf r <;> simp [h]

theorem ratingNeg_iff (r : Feedback) :
    ratingNeg r = true ↔ ∃ n, ratingOf r = some n ∧ n < 0 := by
  unfold ratingNeg
  cases h : ratingOf r <;> simp [h]

/-- With an empty query the search branch of the filter is skipped. -/
theorem filteredItems_empty_query (R : List Feedback) (m : String) :
    filteredItems R m "" =
      if m = "positive" then R.filter (fun item => ratingPos item)
      else if m = "negative" then R.filter (fun item => ratingNeg item)
      else R := by
  have h : hasNonWS "" = false := rfl
  simp [filteredItems, h]

/-- A blank query (whitespace only) behaves exactly like the empty one. -/
theorem filteredItems_blank_query (R : List Feedback) (m q : String)
    (hq : hasNonWS q = false) :
    filteredItems R m q = filteredItems R m "" := by
  have h : hasNonWS "" = false := rfl
  simp [filteredItems, h, hq]

/-- A non-blank query adds one more `filter` pass over the mode-filtered
list. -/
theorem filteredItems_query_filter (R : List Feedback) (m q : String)
    (hq : hasNonWS q = true) :
    filteredItems R m q =
      (filteredItems R m "").filter
        (fun item => matchesQuery (lowerStr q) item) := by
  have h : hasNonWS "" = false := rfl
  simp [filteredItems, h, hq]

/-- Any filter output is a sublist of the same mode's empty-query output. -/
theorem filteredItems_sublist_empty (R : List Feedback) (m q : String) :
    List.Sublist (filteredItems R m q) (filteredItems R m "") := by
  cases hq : hasNonWS q with
  | false => rw [filteredItems_blank_query R m q hq]
  | true => rw [filteredItems_query_filter R m q hq]; exact List.filter_sublist _

/-- Any filter output is a sublist of the input record set. -/
theorem filteredItems_sublist (R : List Feedback) (m q : String) :
    List.Sublist (filteredItems R m q) R := by
  refine (filteredItems_sublist_empty R m q).trans ?_
  rw [filteredItems_empty_query]
  split
  · exact List.filter_sublist _
  · split
    · exact List.filter_sublist _
    · exact List.Sublist.refl _

/-- The search predicate, for a non-blank query, holds iff the lowercased
query occurs in the lowercased title or in some message's lowercased
content. -/
theorem matchesQuery_iff {q : String} (hq : hasNonWS q = true)
    (r : Feedback) :
    matchesQuery (lowerStr q) r = true ↔
      (∃ t, titleOf r = some t ∧
        (lowerStr q).data <:+: (lowerStr t).data) ∨
      (∃ ms, messagesOf r = some ms ∧ ∃ m ∈ ms, ∃ c, m.content = some c ∧
        (lowerStr q).data <:+: (lowerStr c).data) := by
  have hlq : (lowerStr q).data ≠ [] := lowerStr_ne_nil hq
  have htitle := truthy_includes_iff hlq (titleOf r)
  unfold matchesQuery
  cases hcond : (truthyS (titleOf r)
      && includesB (lowerStr ((titleOf r).getD "")) (lowerStr q)) with
  | true =>
      rw [if_pos rfl]
      exact iff_of_true rfl (Or.inl (htitle.mp hcond))
  | false =>
      have hnot : ¬∃ t, titleOf r = some t ∧
          (lowerStr q).data <:+: (lowerStr t).data := by
        intro hx
        rw [← htitle] at hx
        rw [hcond] at hx
        exact Bool.false_ne_true hx
      rw [if_neg (by simp)]
      cases hm : messagesOf r with
      | none => simp [hnot]
      | some ms =>
          simp only [List.any_eq_true, hnot, false_or]
          constructor
          · rintro ⟨m, hmem, hf⟩
            obtain ⟨c, hc, hinf⟩ := (truthy_includes_iff hlq m.content).mp hf
            exact ⟨ms, rfl, m, hmem, c, hc, hinf⟩
          · rintro ⟨ms', hms', m, hmem, c, hc, hinf⟩
            cases hms'
            exact ⟨m, hmem, (truthy_includes_iff hlq m.content).mpr ⟨c, hc, hinf⟩⟩

/-- A record cannot count as both positive and negative. -/
theorem ratingPos_neg_disjoint (r : Feedback) :
    ¬(ratingPos r = true ∧ ratingNeg r = true) := by
  rintro ⟨hp, hn⟩
  obtain ⟨n, hn1, hn2⟩ := (ratingPos_iff r).mp hp
  obtain ⟨m, hm1, hm2⟩ := (ratingNeg_iff r).mp hn
  rw [hn1] at hm1
  cases hm1
  omega

/-- The code's membership test agrees with the plain "rating present and
positive" reading (`getD 0` turns an absent rating into the excluded 0). -/
theorem ratingPos_eq_getD (r : Feedback) :
    ratingPos r = decide (0 < (ratingOf r).getD 0) := by
  cases h : ratingOf r <;> simp [ratingPos, h]

theorem ratingNeg_eq_getD (r : Feedback) :
    ratingNeg r = decide ((ratingOf r).getD 0 < 0) := by
  cases h : ratingOf r <;> simp [ratingNeg, h]

theorem countP_pos_spec (d : List Feedback) :
    d.countP (fun item => ratingPos item)
      = d.countP (fun r => decide (0 < (ratingOf r).getD 0)) := by
  congr 1
  funext r
  exact ratingPos_eq_getD r

theorem countP_neg_spec (d : List Feedback) :
    d.countP (fun item => ratingNeg item)
      = d.countP (fun r => decide ((ratingOf r).getD 0 < 0)) := by
  congr 1
  funext r
  exact ratingNeg_eq_getD r

/-- Positive plus negative counts never exceed the total. -/
theorem countP_posneg_le (d : List Feedback) :
    d.countP (fun item => ratingPos item)
      + d.countP (fun item => ratingNeg item) ≤ d.length := by
  induction d with
  | nil => simp
  | cons a t ih =>
      have hdisj := ratingPos_neg_disjoint a
      simp only [List.countP_cons, List.length_cons]
      cases hpa : ratingPos a <;> cases hna : ratingNeg a <;> simp <;> try omega
      exact absurd ⟨hpa, hna⟩ hdisj

/-- When the two counts exhaust the total, no record is rated exactly 0
(nor unrated). -/
theorem countP_posneg_eq (d : List Feedback)
    (h : d.countP (fun item => ratingPos item)
      + d.countP (fun item => ratingNeg item) = d.length) :
    ∀ r ∈ d, ratingOf r ≠ some 0 := by
  induction d with
  | nil => intro r hr; cases hr
  | cons a t ih =>
      have hle := countP_posneg_le t
      have hdisj := ratingPos_neg_disjoint a
      simp only [List.countP_cons, List.length_cons] at h
      have hsum : t.countP (fun item => ratingPos item)
          + t.countP (fun item => ratingNeg item) = t.length := by
        cases hpa : ratingPos a <;> cases hna : ratingNeg a <;>
          rw [hpa, hna] at h <;> simp at h <;> try omega
        exact absurd ⟨hpa, hna⟩ hdisj
      intro r hr
      rcases List.mem_cons.mp hr with rfl | hrt
      · intro h0
        have hpa : ratingPos r = false := by simp [ratingPos, h0]
        have hna : ratingNeg r = false := by simp [ratingNeg, h0]
        rw [hpa, hna] at h
        simp at h
        omega
      · exact ih hsum r hrt

/-- The HTML produced for one message is the printing of its structured
classification. -/
theorem formatMessage_eq (m : Message) :
    formatMessage m = renderMessage (classifyMessage m) := by
  unfold formatMessage renderMessage classifyMessage displayContent
  cases h : m.error with
  | none => simp [String.append_assoc]
  | some e =>
      cases hc : (e.content != "") <;> simp [hc, String.append_assoc]

/-! ## Claim theorems -/

/-- C1: with an empty query, mode 'positive' returns exactly the records
of `R` whose `data.rating` is present and `> 0`, mode 'negative' exactly
those with rating `< 0`, and mode 'all' returns every record; a record
rated exactly 0 appears only under 'all'; for every mode and query the
output is a subset (sublist) of `R`. -/
theorem filter_mode_exact (R : List Feedback) :
    filteredItems R "positive" "" = R.filter (fun item => ratingPos item) ∧
    filteredItems R "negative" "" = R.filter (fun item => ratingNeg item) ∧
    filteredItems R "all" "" = R ∧
    (∀ r, r ∈ filteredItems R "positive" "" ↔
      r ∈ R ∧ ∃ n, ratingOf r = some n ∧ 0 < n) ∧
    (∀ r, r ∈ filteredItems R "negative" "" ↔
      r ∈ R ∧ ∃ n, ratingOf r = some n ∧ n < 0) ∧
    (∀ r ∈ R, ratingOf r = some 0 →
      r ∉ filteredItems R "positive" "" ∧ r ∉ filteredItems R "negative" "" ∧
        r ∈ filteredItems R "all" "") ∧
    (∀ m q, List.Sublist (filteredItems R m q) R) := by
  have hpos : filteredItems R "positive" ""
      = R.filter (fun item => ratingPos item) := by
    rw [filteredItems_empty_query, if_pos rfl]
  have hneg : filteredItems R "negative" ""
      = R.filter (fun item => ratingNeg item) := by
    rw [filteredItems_empty_query, if_neg (by decide), if_pos rfl]
  have hall : filteredItems R "all" "" = R := by
    rw [filteredItems_empty_query, if_neg (by decide), if_neg (by decide)]
  refine ⟨hpos, hneg, hall, ?_, ?_, ?_, fun m q => filteredItems_sublist R m q⟩
  · intro r
    rw [hpos, List.mem_filter, ratingPos_iff]
  · intro r
    rw [hneg, List.mem_filter, ratingNeg_iff]
  · intro r hr h0
    have hp : ratingPos r = false := by simp [ratingPos, h0]
    have hn : ratingNeg r = false := by simp [ratingNeg, h0]
    refine ⟨?_, ?_, hall ▸ hr⟩
    · rw [hpos, List.mem_filter, hp]
      simp
    · rw [hneg, List.mem_filter, hn]
      simp

theorem filter_mode_exact_witness :
    ratedFeedback "c" 0 ∈ filteredItems scenarioR "all" "" ∧
    ratedFeedback "c" 0 ∉ filteredItems scenarioR "positive" "" ∧
    ratedFeedback "c" 0 ∉ filteredItems scenarioR "negative" "" := by
  have h := (filter_mode_exact scenarioR).2.2.2.2.2.1
    (ratedFeedback "c" 0) (by decide) (by decide)
  exact ⟨h.2.2, h.1, h.2.1⟩

/-- C2: for a query with a non-whitespace character, a record passes the
search iff the lowercased query occurs as a contiguous substring of the
lowercased transcript title or of the lowercased content of some message;
a non-blank query adds exactly that search pass over the mode-filtered
list; an empty or whitespace-only query leaves the mode-filtered list
untouched. -/
theorem search_query_spec (q : String) :
    (hasNonWS q = true → ∀ r : Feedback,
      matchesQuery (lowerStr q) r = true ↔
        (∃ t, titleOf r = some t ∧
          (lowerStr q).data <:+: (lowerStr t).data) ∨
        (∃ ms, messagesOf r = some ms ∧ ∃ m ∈ ms, ∃ c, m.content = some c ∧
          (lowerStr q).data <:+: (lowerStr c).data)) ∧
    (hasNonWS q = true → ∀ R m, filteredItems R m q =
      (filteredItems R m "").filter
        (fun item => matchesQuery (lowerStr q) item)) ∧
    (hasNonWS q = false → ∀ R m, filteredItems R m q = filteredItems R m "") :=
  ⟨fun hq r => matchesQuery_iff hq r,
   fun hq R m => filteredItems_query_filter R m q hq,
   fun hq R m => filteredItems_blank_query R m q hq⟩

theorem search_query_spec_witness :
    matchesQuery (lowerStr "hello")
      (snapFeedback "e1" (some "Hello World") none) = true ∧
    matchesQuery (lowerStr "hello")
      (snapFeedback "e2" (some "No match")
        (some [plainMessage "user" (some "say hello there")])) = true := by
  have h := (search_query_spec "hello").1 (by decide)
  refine ⟨(h _).mpr (Or.inl ⟨"Hello World", rfl, by decide⟩), ?_⟩
  exact (h _).mpr (Or.inr ⟨[plainMessage "user" (some "say hello there")], rfl,
    plainMessage "user" (some "say hello there"), by decide,
    "say hello there", rfl, by decide⟩)

/-- C3: processing a snapshot sets `totalItems` to its length,
`positiveCount` to the number of records with a present rating `> 0`, and
`negativeCount` to the number with a present rating `< 0`, all over the
unfiltered snapshot; positive + negative never exceeds the total, and
equality forces every record's rating to differ from 0; Scenario A
(`[1, -1, 0]`) yields 3 / 1 / 1. -/
theorem processFeedbackData_stats (d : List Feedback) (s : ComponentState) :
    (processFeedbackData d s).totalItems = d.length ∧
    (processFeedbackData d s).positiveCount
      = d.countP (fun r => decide (0 < (ratingOf r).getD 0)) ∧
    (processFeedbackData d s).negativeCount
      = d.countP (fun r => decide ((ratingOf r).getD 0 < 0)) ∧
    (processFeedbackData d s).positiveCount
        + (processFeedbackData d s).negativeCount
      ≤ (processFeedbackData d s).totalItems ∧
    ((processFeedbackData d s).positiveCount
        + (processFeedbackData d s).negativeCount
      = (processFeedbackData d s).totalItems → ∀ r ∈ d, ratingOf r ≠ some 0) ∧
    (processFeedbackData scenarioR initState).totalItems = 3 ∧
    (processFeedbackData scenarioR initState).positiveCount = 1 ∧
    (processFeedbackData scenarioR initState).negativeCount = 1 := by
  refine ⟨rfl, countP_pos_spec d, countP_neg_spec d, countP_posneg_le d,
    fun h => countP_posneg_eq d h, by decide, by decide, by decide⟩

theorem processFeedbackData_stats_witness :
    ratingOf (ratedFeedback "a" 1) ≠ some 0 := by
  exact (processFeedbackData_stats [ratedFeedback "a" 1] initState).2.2.2.2.1
    (by decide) (ratedFeedback "a" 1) (by decide)

/-- C4: the filter output for `(m, q)` is always a sublist (hence a
subset) of the output for `(m, "")`, and `filterFeedbackItems` always
recomputes the display list from the untouched `originalFeedbacksData`,
which it never modifies. -/
theorem query_narrows (R : List Feedback) (m q : String) :
    List.Sublist (filteredItems R m q) (filteredItems R m "") ∧
    (∀ r, r ∈ filteredItems R m q → r ∈ filteredItems R m "") ∧
    (∀ s : ComponentState,
      (filterFeedbackItems m q s).originalFeedbacksData
        = s.originalFeedbacksData ∧
      (filterFeedbackItems m q s).parsedFeedbacksData
        = filteredItems s.originalFeedbacksData m q ∧
      (∀ r, r ∈ (filterFeedbackItems m q s).parsedFeedbacksData →
        r ∈ (filterFeedbackItems m "" s).parsedFeedbacksData)) :=
  ⟨filteredItems_sublist_empty R m q,
   fun _ hr => (filteredItems_sublist_empty R m q).subset hr,
   fun s => ⟨rfl, rfl,
     fun _ hr =>
       (filteredItems_sublist_empty s.originalFeedbacksData m q).subset hr⟩⟩

theorem query_narrows_witness :
    snapFeedback "e1" (some "Hello World") none ∈
      filteredItems [snapFeedback "e1" (some "Hello World") none] "all" "" :=
  (query_narrows [snapFeedback "e1" (some "Hello World") none]
    "all" "HELLO").2.1 _ (by decide)

/-- C5 counterexample: a successful refresh does not keep the active
mode/query — starting from active filter 'positive' and query "x", the
refreshed state carries neither. -/
theorem refresh_keeps_filter_cex :
    ¬((refreshFeedbacksAnalysis (some scenarioR) preFilterState).activeFilter
        = preFilterState.activeFilter ∧
      (refreshFeedbacksAnalysis (some scenarioR) preFilterState).searchQuery
        = preFilterState.searchQuery) := by decide

/-- C5 (amended): after a successful refresh the analysis snapshot is
wholesale-replaced by the fetched export and the summary statistics are
recomputed over it, but the active filter and query are reset to mode
'all' with an empty query, so the displayed set is the full new export;
the table's record list is untouched, and a failed refresh changes
nothing. -/
theorem refresh_replaces_and_resets (d : List Feedback) (s : ComponentState) :
    (refreshFeedbacksAnalysis (some d) s).originalFeedbacksData = d ∧
    (refreshFeedbacksAnalysis (some d) s).totalItems = d.length ∧
    (refreshFeedbacksAnalysis (some d) s).positiveCount
      = d.countP (fun r => decide (0 < (ratingOf r).getD 0)) ∧
    (refreshFeedbacksAnalysis (some d) s).negativeCount
      = d.countP (fun r => decide ((ratingOf r).getD 0 < 0)) ∧
    (refreshFeedbacksAnalysis (some d) s).activeFilter = "all" ∧
    (refreshFeedbacksAnalysis (some d) s).searchQuery = "" ∧
    (refreshFeedbacksAnalysis (some d) s).parsedFeedbacksData = d ∧
    (refreshFeedbacksAnalysis (some d) s).feedbacks = s.feedbacks ∧
    (refreshFeedbacksAnalysis (some d) s).showFeedbackAnalysis
      = s.showFeedbackAnalysis ∧
    refreshFeedbacksAnalysis none s = s := by
  have hall : filteredItems d "all" "" = d := by
    rw [filteredItems_empty_query, if_neg (by decide), if_neg (by decide)]
  exact ⟨rfl, rfl, countP_pos_spec d, countP_neg_spec d, rfl, rfl, hall,
    rfl, rfl, rfl⟩

/-- C6 counterexample: from Hidden with a non-empty analysis snapshot,
the toggle still reprocesses (the guard tests the displayed filtered
list, not the snapshot), replacing the snapshot. -/
theorem toggle_reprocesses_cex :
    staleParsedState.showFeedbackAnalysis = false ∧
    staleParsedState.originalFeedbacksData ≠ [] ∧
    (toggleFeedbackAnalysis staleParsedState).originalFeedbacksData
      ≠ staleParsedState.originalFeedbacksData := by decide

/-- Unfolding of the toggle: the new visibility decides everything. -/
theorem toggleFeedbackAnalysis_eq (s : ComponentState) :
    toggleFeedbackAnalysis s =
      if (!s.showFeedbackAnalysis) && s.parsedFeedbacksData.length == 0 then
        processFeedbackData s.feedbacks
          { s with showFeedbackAnalysis := !s.showFeedbackAnalysis }
      else
        { s with showFeedbackAnalysis := !s.showFeedbackAnalysis } := rfl

/-- C6 (amended): the toggle flips visibility; the Hidden → Visible
transition repopulates the snapshot (from the current full record list,
resetting the filter to 'all' / '') iff the currently displayed filtered
list is empty — with a non-empty displayed list it changes only
visibility — and the Visible → Hidden transition changes only visibility,
discarding no data. -/
theorem toggle_visibility (s : ComponentState) :
    (toggleFeedbackAnalysis s).showFeedbackAnalysis
      = !s.showFeedbackAnalysis ∧
    (s.showFeedbackAnalysis = true →
      toggleFeedbackAnalysis s = { s with showFeedbackAnalysis := false }) ∧
    (s.showFeedbackAnalysis = false → s.parsedFeedbacksData ≠ [] →
      toggleFeedbackAnalysis s = { s with showFeedbackAnalysis := true }) ∧
    (s.showFeedbackAnalysis = false → s.parsedFeedbacksData = [] →
      (toggleFeedbackAnalysis s).originalFeedbacksData = s.feedbacks ∧
      (toggleFeedbackAnalysis s).parsedFeedbacksData = s.feedbacks ∧
      (toggleFeedbackAnalysis s).feedbacks = s.feedbacks ∧
      (toggleFeedbackAnalysis s).totalItems = s.feedbacks.length ∧
      (toggleFeedbackAnalysis s).activeFilter = "all" ∧
      (toggleFeedbackAnalysis s).searchQuery = "") := by
  refine ⟨?_, ?_, ?_, ?_⟩
  · rw [toggleFeedbackAnalysis_eq]
    split
    · rfl
    · rfl
  · intro h
    rw [toggleFeedbackAnalysis_eq, h]
    rfl
  · intro h hne
    have hlen : (s.parsedFeedbacksData.length == 0) = false := by
      simp only [beq_eq_false_iff_ne, ne_eq, List.length_eq_zero]
      exact hne
    rw [toggleFeedbackAnalysis_eq, h]
    simp only [Bool.not_false, Bool.true_and, hlen, Bool.false_eq_true,
      if_false]
  · intro h hp
    have hfall : filteredItems s.feedbacks "all" "" = s.feedbacks := by
      rw [filteredItems_empty_query, if_neg (by decide), if_neg (by decide)]
    have hcond : (!false && ([] : List Feedback).length == 0) = true := rfl
    rw [toggleFeedbackAnalysis_eq, h, hp, if_pos hcond]
    exact ⟨rfl, hfall, rfl, rfl, rfl, rfl⟩

theorem toggle_visibility_witness :
    toggleFeedbackAnalysis
      { initState with
        showFeedbackAnalysis := true
        parsedFeedbacksData := [ratedFeedback "a" 1] }
      = { initState with
          showFeedbackAnalysis := false
          parsedFeedbacksData := [ratedFeedback "a" 1] } := by
  exact (toggle_visibility
    { initState with
      showFeedbackAnalysis := true
      parsedFeedbacksData := [ratedFeedback "a" 1] }).2.1 rfl

/-- C7: delete is atomic on local state — a failed network call leaves
the whole state unchanged; a successful one removes from `feedbacks`
exactly the records carrying the given id (membership is otherwise
preserved, in order), and touches nothing else. -/
theorem delete_atomic (feedbackId : String) (s : ComponentState) :
    deleteFeedbackHandler false feedbackId s = s ∧
    (deleteFeedbackHandler true feedbackId s).feedbacks
      = s.feedbacks.filter (fun f => f.id != feedbackId) ∧
    (∀ f, f ∈ (deleteFeedbackHandler true feedbackId s).feedbacks ↔
      f ∈ s.feedbacks ∧ f.id ≠ feedbackId) ∧
    List.Sublist (deleteFeedbackHandler true feedbackId s).feedbacks
      s.feedbacks ∧
    (deleteFeedbackHandler true feedbackId s).originalFeedbacksData
      = s.originalFeedbacksData ∧
    (deleteFeedbackHandler true feedbackId s).parsedFeedbacksData
      = s.parsedFeedbacksData ∧
    (deleteFeedbackHandler true feedbackId s).showFeedbackAnalysis
      = s.showFeedbackAnalysis := by
  refine ⟨rfl, rfl, ?_, List.filter_sublist _, rfl, rfl, rfl⟩
  intro f
  show f ∈ s.feedbacks.filter (fun f => f.id != feedbackId) ↔ _
  rw [List.mem_filter]
  simp [bne]

theorem delete_atomic_witness :
    deleteFeedbackHandler false "a" { initState with feedbacks := scenarioR }
      = { initState with feedbacks := scenarioR } ∧
    (deleteFeedbackHandler true "a"
        { initState with feedbacks := scenarioR }).feedbacks
      = [ratedFeedback "b" (-1), ratedFeedback "c" 0] := by
  refine ⟨(delete_atomic "a" { initState with feedbacks := scenarioR }).1, ?_⟩
  rw [(delete_atomic "a" { initState with feedbacks := scenarioR }).2.1]
  decide

/-- C8: the share payload drops the `snapshot` and `user` fields of every
record — it is unchanged under any rewriting of those two fields, so two
record sets that agree on everything else share identically, and the
payload coincides with that of the fully redacted inputs. -/
theorem share_excludes_private (fs gs : List Feedback)
    (h : List.Forall₂
      (fun f g => g = { f with snapshot := g.snapshot, user := g.user })
      fs gs) :
    feedbacksToShare fs = feedbacksToShare gs ∧
    (∀ (f : Feedback) (sn : Option Snapshot) (u : Option UserInfo),
      stripFeedback { f with snapshot := sn, user := u } = stripFeedback f) ∧
    (∀ l : List Feedback, feedbacksToShare l
      = feedbacksToShare
          (l.map (fun f => { f with snapshot := none, user := none }))) := by
  refine ⟨?_, fun f sn u => rfl, fun l => ?_⟩
  · induction h with
    | nil => rfl
    | cons hfg _ ih =>
        simp only [feedbacksToShare, List.map_cons] at ih ⊢
        rw [ih, hfg]
        rfl
  · simp only [feedbacksToShare, List.map_map]
    rfl

theorem share_excludes_private_witness :
    feedbacksToShare [snapFeedback "e1" (some "Hello World") none]
      = feedbacksToShare
          [{ snapFeedback "e1" (some "Hello World") none with
             snapshot := none
             user := some { name := some "alice"
                            profile_image_url := none } }] := by
  exact (share_excludes_private _ _
    (List.Forall₂.cons (by decide) List.Forall₂.nil)).1

/-- C9: a non-array input renders as the single 'no data' placeholder;
an array renders 1:1 in input order as the concatenation of per-message
blocks, each block being the printing of the message's structured
classification, whose fields follow the message: user/assistant by role,
the text content, an error sub-block exactly when a non-empty error text
is present, and the flagged marker exactly when an annotation or feedback
linkage is carried. -/
theorem formatConversation_spec :
    formatConversation none = noDataPlaceholder ∧
    (∀ messages : List Message,
      formatConversation (some messages)
        = String.join
            (messages.map (fun m => renderMessage (classifyMessage m)))) ∧
    (∀ m : Message, (classifyMessage m).isUser = (m.role == "user")) ∧
    (∀ m : Message, (classifyMessage m).flagged
      = (truthyS m.annotation || truthyS m.feedbackId)) ∧
    (∀ m : Message, (classifyMessage m).text = m.content.getD "") ∧
    (∀ (m : Message) (e : ErrorInfo), m.error = some e → e.content ≠ "" →
      (classifyMessage m).errorText = some e.content) ∧
    (∀ m : Message, m.error = none → (classifyMessage m).errorText = none) := by
  have hfun : formatMessage = fun m => renderMessage (classifyMessage m) :=
    funext formatMessage_eq
  refine ⟨rfl, ?_, fun m => rfl, fun m => rfl, fun m => rfl, ?_, ?_⟩
  · intro messages
    show String.join (messages.map formatMessage) = _
    rw [hfun]
  · intro m e he hc
    simp [classifyMessage, he, hc]
  · intro m he
    simp [classifyMessage, he]

theorem formatConversation_spec_witness :
    (classifyMessage
      { role := "assistant"
        content := some "x"
        annotation := none
        feedbackId := none
        error := some { content := "boom" } }).errorText = some "boom" := by
  exact formatConversation_spec.2.2.2.2.2.1 _ { content := "boom" } rfl
    (by decide)

/-- C10: a record whose `data` or `data.rating` is absent is handled
totally: it is classified neither positive nor negative, excluded from
the 'positive' and 'negative' outputs under every query, included by
'all' with the empty query, and counted in the total but in neither
summary count. -/
theorem missing_rating_total (r : Feedback) (h : ratingOf r = none) :
    ratingPos r = false ∧ ratingNeg r = false ∧
    (∀ (R : List Feedback) (q : String),
      r ∉ filteredItems R "positive" q) ∧
    (∀ (R : List Feedback) (q : String),
      r ∉ filteredItems R "negative" q) ∧
    (∀ R : List Feedback, r ∈ R → r ∈ filteredItems R "all" "") ∧
    (∀ R : List Feedback,
      (r :: R).countP (fun item => ratingPos item)
        = R.countP (fun item => ratingPos item) ∧
      (r :: R).countP (fun item => ratingNeg item)
        = R.countP (fun item => ratingNeg item) ∧
      (r :: R).length = R.length + 1) := by
  have hp : ratingPos r = false := by simp [ratingPos, h]
  have hn : ratingNeg r = false := by simp [ratingNeg, h]
  refine ⟨hp, hn, ?_, ?_, ?_, ?_⟩
  · intro R q hr
    have hmem := (filteredItems_sublist_empty R "positive" q).subset hr
    rw [filteredItems_empty_query, if_pos rfl, List.mem_filter] at hmem
    rw [hp] at hmem
    exact absurd hmem.2 (by simp)
  · intro R q hr
    have hmem := (filteredItems_sublist_empty R "negative" q).subset hr
    rw [filteredItems_empty_query, if_neg (by decide), if_pos rfl,
      List.mem_filter] at hmem
    rw [hn] at hmem
    exact absurd hmem.2 (by simp)
  · intro R hr
    rw [filteredItems_empty_query, if_neg (by decide), if_neg (by decide)]
    exact hr
  · intro R
    simp [List.countP_cons, hp, hn]

theorem missing_rating_total_witness :
    noDataFeedback ∉ filteredItems [noDataFeedback] "positive" "" ∧
    noDataFeedback ∉ filteredItems [noDataFeedback] "negative" "" ∧
    noDataFeedback ∈ filteredItems [noDataFeedback] "all" "" := by
  have h := missing_rating_total noDataFeedback (by decide)
  exact ⟨h.2.2.1 [noDataFeedback] "", h.2.2.2.1 [noDataFeedback] "",
    h.2.2.2.2.1 [noDataFeedback] (by decide)⟩
